import Mathlib

/-!
Shallow embedding of the prompt-composer backend (src/main.py) and
verification of its specification.

The program is a small web backend: a request schema (PromptRequest,
validated declaratively), a static model-to-style table (MODEL_STYLES), a
bullet-list renderer (bjoin), a prompt composer (generate_prompt) and a
diagnostic endpoint (test_database).  Strings are embedded as Lean String
values (character sequences, matching Python str semantics for the
operations used here: concatenation, character slicing, strip).  The
fallible handler generate_prompt returns an Except value whose error case
embeds the raised HTTPException.  The diagnostic endpoint reads the
process environment and an optional datastore module; these effects are
embedded as an explicit environment record passed to the function, and
exception-raising collaborator calls are embedded as Except-valued fields
of that record.
-/

set_option maxRecDepth 100000

namespace Backend

/-- Allowed values of the llm field: the Literal enum on PromptRequest.llm
(main.py line 18). -/
def llmValues : List String :=
  ["gpt-4o", "gpt-4.1", "claude-3.5", "gemini-1.5", "llama-3.1", "mistral-large"]

/-- Allowed values of the site_type field (main.py lines 22-24). -/
def siteTypeValues : List String :=
  ["landing", "marketing", "portfolio", "blog", "docs", "saas", "ecommerce"]

/-- Allowed values of the tone field (main.py lines 25-27). -/
def toneValues : List String :=
  ["professional", "friendly", "playful", "minimal", "luxury", "technical"]

/-- Allowed values of the output_format field (main.py line 44). -/
def outputFormatValues : List String := ["markdown", "plain", "json"]

/-- Default value of the deliverables field (main.py lines 35-43). -/
def defaultDeliverables : List String :=
  ["mapa do site",
   "roteiro de conteúdo",
   "descrição de wireframe",
   "lista de componentes",
   "comportamento responsivo",
   "metas de SEO",
   "checklist de acessibilidade"]

/-- The validated request model PromptRequest (main.py lines 17-44).
Optional free-text fields (target_audience, brand_colors, constraints) are
embedded as plain strings: their default is the empty string, and the one
consumer of these fields (generate_prompt) only tests Python truthiness,
under which an explicit None and the empty string behave identically. -/
structure PromptRequest where
  llm : String
  project_name : String
  site_type : String
  tone : String
  target_audience : String
  brand_colors : String
  features : List String
  pages : List String
  seo_keywords : List String
  constraints : String
  preferred_stack : List String
  deliverables : List String
  output_format : String
deriving DecidableEq

/-- The response model PromptResponse (main.py lines 46-48). -/
structure PromptResponse where
  prompt : String
  llm : String
deriving DecidableEq

/-- A raw inbound request body before pydantic validation: each field is
either absent (none) or present with a value.  Wire values are assumed
well-typed (strings and string lists); pydantic also rejects ill-typed
values, which this embedding does not need to model for the claims at
hand. -/
structure RawRequest where
  llm : Option String := none
  project_name : Option String := none
  site_type : Option String := none
  tone : Option String := none
  target_audience : Option String := none
  brand_colors : Option String := none
  features : Option (List String) := none
  pages : Option (List String) := none
  seo_keywords : Option (List String) := none
  constraints : Option String := none
  preferred_stack : Option (List String) := none
  deliverables : Option (List String) := none
  output_format : Option String := none
deriving DecidableEq

/-- Pydantic validation of a raw request against the PromptRequest schema
(main.py lines 17-44): the three required fields must be present, the four
Literal-typed fields must take one of their enumerated values, and every
omitted optional field is filled with its declared default.  Note that
project_name is declared as a plain str: presence is required but any
string value, including the empty string, is accepted. -/
def validate (raw : RawRequest) : Except String PromptRequest :=
  match raw.llm with
  | none => .error "llm: field required"
  | some llm =>
    if llmValues.contains llm then
    match raw.project_name with
    | none => .error "project_name: field required"
    | some project_name =>
      match raw.site_type with
      | none => .error "site_type: field required"
      | some site_type =>
        if siteTypeValues.contains site_type then
        if toneValues.contains (raw.tone.getD "professional") then
        if outputFormatValues.contains (raw.output_format.getD "markdown") then
        .ok { llm := llm
              project_name := project_name
              site_type := site_type
              tone := raw.tone.getD "professional"
              target_audience := raw.target_audience.getD ""
              brand_colors := raw.brand_colors.getD ""
              features := raw.features.getD []
              pages := raw.pages.getD []
              seo_keywords := raw.seo_keywords.getD []
              constraints := raw.constraints.getD ""
              preferred_stack := raw.preferred_stack.getD []
              deliverables := raw.deliverables.getD defaultDeliverables
              output_format := raw.output_format.getD "markdown" }
        else .error "output_format: unexpected value"
        else .error "tone: unexpected value"
        else .error "site_type: unexpected value"
    else .error "llm: unexpected value"

/-- Characterization of requests that pass schema validation: the enum
constrained fields carry permitted values. -/
def validRequest (req : PromptRequest) : Bool :=
  llmValues.contains req.llm && siteTypeValues.contains req.site_type &&
  toneValues.contains req.tone && outputFormatValues.contains req.output_format

/-- One entry of the style table: the pair of short text fields attached to
each model identifier (main.py lines 94-119). -/
structure ModelStyle where
  system : String
  notes : String
deriving DecidableEq

/-- The static style table MODEL_STYLES (main.py lines 94-119), embedded as
an association list in source order. -/
def MODEL_STYLES : List (String × ModelStyle) :=
  [("gpt-4o",
    ⟨"Você é um(a) arquiteto(a) sênior de produto + UX + frontend. Produza instruções precisas, concisas e prontas para implementação.",
     "Prefira listas objetivas e seções prontas para código."⟩),
   ("gpt-4.1",
    ⟨"Você é um(a) redator(a) técnico(a) e engenheiro(a) de UI meticuloso(a).",
     "Prefira listas estruturadas e critérios de aceite explícitos."⟩),
   ("claude-3.5",
    ⟨"Você é reflexivo(a) e ponderado(a). Explique trade-offs e proponha alternativas.",
     "Inclua checklists e seções de raciocínio."⟩),
   ("gemini-1.5",
    ⟨"Você é designer de produto multimodal + engenheiro(a).",
     "Se houver imagens, descreva-as. Mantenha passos explícitos."⟩),
   ("llama-3.1",
    ⟨"Você é um(a) arquiteto(a) web open-source. Seja explícito(a) e determinístico(a).",
     "Evite ambiguidades; inclua divisão clara de arquivos/componentes."⟩),
   ("mistral-large",
    ⟨"Você é um(a) tech lead pragmático(a) de frontend.",
     "Use instruções concisas com passos numerados."⟩)]

/-- Python dict lookup MODEL_STYLES.get(llm) (main.py line 128). -/
def lookupStyle (llm : String) : Option ModelStyle :=
  (MODEL_STYLES.find? (fun p => p.1 == llm)).map (fun p => p.2)

/-- Python newline join, the call to join on the separator string with one
argument list (main.py line 123). -/
def joinNl : List String → String
  | [] => ""
  | [s] => s
  | s :: s₂ :: rest => s ++ "\n" ++ joinNl (s₂ :: rest)

/-- The helper bjoin (main.py lines 122-123): an empty list renders the
placeholder line, a non-empty list renders the elements each prefixed with
a bullet marker and joined by newlines. -/
def bjoin (items : List String) : String :=
  if items.isEmpty then "- (nenhum)"
  else joinNl (items.map (fun i => "- " ++ i))

/-- Python string truthiness fallback, the expression using the or operator
on a string and a default (main.py lines 149-151): the default is taken
exactly when the field is empty. -/
def pyOr (s dflt : String) : String := if s = "" then dflt else s

/-- Python str.strip(): remove leading and trailing whitespace characters
(main.py line 177 applies it to the rendered core template). -/
def pyStrip (s : String) : String :=
  ⟨((s.data.dropWhile Char.isWhitespace).reverse.dropWhile Char.isWhitespace).reverse⟩

/-- The HTTPException raised by the handler, carrying a status code and a
detail message (main.py line 130). -/
structure HTTPError where
  status_code : Nat
  detail : String
deriving DecidableEq

/-- The header f-string (main.py line 138). -/
def headerOf (req : PromptRequest) : String :=
  "Modelo: " ++ req.llm ++ "\nProjeto: " ++ req.project_name ++
  "\nTipo: " ++ req.site_type ++ "\nTom: " ++ req.tone ++ "\n"

/-- The body of the core triple-quoted f-string (main.py lines 140-177),
without the leading and trailing newline that the triple-quoted literal
carries around it; the interpolated template written out as explicit
concatenation in source order.  The full literal is the body wrapped in one
newline on each side, see coreRaw below. -/
def coreBody (req : PromptRequest) (style : ModelStyle) : String :=
  "[SISTEMA]\n" ++ style.system ++ "\nNotas adicionais: " ++ style.notes ++ "\n\n" ++
  "[OBJETIVO]\nProjete e descreva um site completo para \"" ++ req.project_name ++ "\".\n\n" ++
  "[CONTEXTO]\nPúblico-alvo: " ++ pyOr req.target_audience "Público geral da web" ++
  "\nCores/tema da marca: " ++ pyOr req.brand_colors "A definir" ++
  "\nRestrições: " ++ pyOr req.constraints "Nenhuma especificada" ++
  "\nStack preferida: \n" ++ bjoin req.preferred_stack ++ "\n\n" ++
  "[TIPO DE SITE]\n" ++ req.site_type ++ "\n\n" ++
  "[FUNCIONALIDADES]\n" ++ bjoin req.features ++ "\n\n" ++
  "[PÁGINAS]\n" ++ bjoin req.pages ++ "\n\n" ++
  "[SEO]\nPalavras-chave principais:\n" ++ bjoin req.seo_keywords ++ "\n\n" ++
  "[ENTREGÁVEIS]\nProduza o seguinte, otimizando para o modelo selecionado:\n" ++ bjoin req.deliverables ++ "\n\n" ++
  "[GUIA DE ESTILO]\n- Voz e tom: " ++ req.tone ++
  "\n- Acessibilidade: WCAG 2.2 AA; inclua landmarks, contraste de cores e navegação por teclado.\n- Desempenho: lazy-load de mídia, compressão de assets, mínimo de JavaScript quando possível.\n\n" ++
  "[SAÍDA]\nFormato de saída preferido: " ++ req.output_format ++
  "\nForneça seções com títulos claros. Inclua exemplos de copy, nomes de componentes e critérios de aceite para cada página. Quando relevante, forneça exemplos de utilitários do Tailwind."

/-- The full core triple-quoted f-string before strip (main.py lines
140-177): the template text starts with a newline right after the opening
quotes and ends with a newline right before the closing quotes. -/
def coreRaw (req : PromptRequest) (style : ModelStyle) : String :=
  "\n" ++ coreBody req style ++ "\n"

/-- The handler generate_prompt (main.py lines 126-179): resolve the style,
raise a 400 HTTPException when absent, otherwise render the header and the
stripped core template and return them joined by a blank line, echoing the
model identifier. -/
def generate_prompt (req : PromptRequest) : Except HTTPError PromptResponse :=
  match lookupStyle req.llm with
  | none => .error ⟨400, "Modelo não suportado"⟩
  | some style =>
    .ok ⟨headerOf req ++ "\n\n" ++ pyStrip (coreRaw req style), req.llm⟩

instance {ε α : Type} [DecidableEq ε] [DecidableEq α] : DecidableEq (Except ε α) := fun x y =>
  match x, y with
  | .ok a, .ok b => decidable_of_iff (a = b) (by simp)
  | .error a, .error b => decidable_of_iff (a = b) (by simp)
  | .ok _, .error _ => isFalse (by simp)
  | .error _, .ok _ => isFalse (by simp)

/-- A handle on the optional datastore module: the attribute name read by
getattr and the collaborator call list_collection_names, which either
returns a list of names or raises (embedded as an Except value, the error
carrying the text of the raised exception). -/
structure DBHandle where
  name : Option String
  list_collection_names : Except String (List String)
deriving DecidableEq

/-- Outcome of the statement importing the datastore module (main.py line
69): the import may fail with ImportError, fail with some other exception,
or produce the module attribute db, itself possibly None. -/
inductive ImportOutcome where
  | importError : ImportOutcome
  | otherError : String → ImportOutcome
  | ok : Option DBHandle → ImportOutcome
deriving DecidableEq

/-- The ambient state read by the diagnostic endpoint: the import outcome
and the two environment variables (none when unset). -/
structure TestEnv where
  dbImport : ImportOutcome
  DATABASE_URL : Option String
  DATABASE_NAME : Option String
deriving DecidableEq

/-- The response dictionary built by the diagnostic endpoint (main.py lines
60-67).  The two fields initialized to Python None are embedded as Option
String. -/
structure TestResponse where
  backend : String
  database : String
  database_url : Option String
  database_name : Option String
  connection_status : String
  collections : List String
deriving DecidableEq

/-- Python truthiness of an os.getenv result: false when the variable is
unset and when it is set to the empty string. -/
def pyTruthy : Option String → Bool
  | none => false
  | some s => s != ""

/-- The handler test_database (main.py lines 58-91): build the initial
response, mutate it according to the datastore probe with every exception
absorbed into a status string, then unconditionally overwrite the
database_url and database_name fields from the environment variables. -/
def test_database (env : TestEnv) : TestResponse :=
  let response : TestResponse :=
    { backend := "✅ Em execução"
      database := "❌ Indisponível"
      database_url := none
      database_name := none
      connection_status := "Não conectado"
      collections := [] }
  let response :=
    match env.dbImport with
    | .importError =>
      { response with database := "❌ Módulo de banco de dados não encontrado (opcional)" }
    | .otherError e =>
      { response with database := "❌ Erro: " ++ e.take 50 }
    | .ok none =>
      { response with database := "⚠️  Disponível, porém não inicializado" }
    | .ok (some db) =>
      let response :=
        { response with
          database := "✅ Disponível"
          database_url := some "✅ Configurada"
          database_name := some (db.name.getD "✅ Conectado")
          connection_status := "Conectado" }
      match db.list_collection_names with
      | .ok collections =>
        { response with
          collections := collections.take 10
          database := "✅ Conectado e funcionando" }
      | .error e =>
        { response with database := "⚠️  Conectado, mas erro: " ++ e.take 50 }
  { response with
    database_url := some (if pyTruthy env.DATABASE_URL then "✅ Definida" else "❌ Não definida")
    database_name := some (if pyTruthy env.DATABASE_NAME then "✅ Definido" else "❌ Não definido") }

/-- Number of occurrences of a pattern in a string, counted as the number
of character positions at which the pattern occurs as a substring. -/
def countOccs (s pat : String) : Nat :=
  (List.range (s.data.length + 1)).countP
    (fun i => (s.data.drop i).take pat.data.length == pat.data)

/-- Sum of the character lengths of the elements of a list of strings. -/
def sumLens (l : List String) : Nat := (l.map String.length).sum

/-- Sum of the lengths of the request field contents, each field counted
once: the reading of the spec phrase about the sum of input field
lengths. -/
def plainSize (req : PromptRequest) : Nat :=
  req.llm.length + req.project_name.length + req.site_type.length + req.tone.length +
  req.target_audience.length + req.brand_colors.length + req.constraints.length +
  req.output_format.length + sumLens req.features + sumLens req.pages +
  sumLens req.seo_keywords + sumLens req.preferred_stack + sumLens req.deliverables

/-- Corrected size measure for the output length bound: the project name,
site type and tone are each rendered twice (header and body), and each list
element carries a constant per-element rendering overhead (bullet marker
and separator). -/
def weightedSize (req : PromptRequest) : Nat :=
  plainSize req + req.project_name.length + req.site_type.length + req.tone.length +
  3 * (req.features.length + req.pages.length + req.seo_keywords.length +
       req.preferred_stack.length + req.deliverables.length)

/-- Fixed constant bounding the template boilerplate contributed to the
prompt independently of the request fields. -/
def TEMPLATE_OVERHEAD : Nat := 20000

/-- The header block without its trailing newline: the four header lines. -/
def headerLines (req : PromptRequest) : String :=
  "Modelo: " ++ req.llm ++ "\nProjeto: " ++ req.project_name ++
  "\nTipo: " ++ req.site_type ++ "\nTom: " ++ req.tone

/-- The part of the core template that precedes the deliverables section. -/
def coreFront (req : PromptRequest) (style : ModelStyle) : String :=
  "[SISTEMA]\n" ++ style.system ++ "\nNotas adicionais: " ++ style.notes ++ "\n\n" ++
  "[OBJETIVO]\nProjete e descreva um site completo para \"" ++ req.project_name ++ "\".\n\n" ++
  "[CONTEXTO]\nPúblico-alvo: " ++ pyOr req.target_audience "Público geral da web" ++
  "\nCores/tema da marca: " ++ pyOr req.brand_colors "A definir" ++
  "\nRestrições: " ++ pyOr req.constraints "Nenhuma especificada" ++
  "\nStack preferida: \n" ++ bjoin req.preferred_stack ++ "\n\n" ++
  "[TIPO DE SITE]\n" ++ req.site_type ++ "\n\n" ++
  "[FUNCIONALIDADES]\n" ++ bjoin req.features ++ "\n\n" ++
  "[PÁGINAS]\n" ++ bjoin req.pages ++ "\n\n" ++
  "[SEO]\nPalavras-chave principais:\n" ++ bjoin req.seo_keywords ++ "\n\n"

/-- The part of the core template that follows the deliverables section. -/
def coreBack (req : PromptRequest) : String :=
  "[GUIA DE ESTILO]\n- Voz e tom: " ++ req.tone ++
  "\n- Acessibilidade: WCAG 2.2 AA; inclua landmarks, contraste de cores e navegação por teclado.\n- Desempenho: lazy-load de mídia, compressão de assets, mínimo de JavaScript quando possível.\n\n" ++
  "[SAÍDA]\nFormato de saída preferido: " ++ req.output_format ++
  "\nForneça seções com títulos claros. Inclua exemplos de copy, nomes de componentes e critérios de aceite para cada página. Quando relevante, forneça exemplos de utilitários do Tailwind."

/-- Concrete supported request used by the C2 witness. -/
def reqC2 : PromptRequest :=
  ⟨"claude-3.5", "Acme", "blog", "minimal", "", "", [], [], [], "", [], [], "markdown"⟩

/-- Concrete raw request used by the C3 witness. -/
def rawC3 : RawRequest :=
  { llm := some "gpt-4.1", project_name := some "Loja Zen", site_type := some "ecommerce",
    features := some ["cart", "checkout"] }

/-- Concrete validated request produced from rawC3. -/
def reqC3 : PromptRequest :=
  ⟨"gpt-4.1", "Loja Zen", "ecommerce", "professional", "", "", ["cart", "checkout"],
   [], [], "", [], defaultDeliverables, "markdown"⟩

/-- Concrete request whose project name coincides with its model
identifier, used against the exactly-once occurrence claim. -/
def reqC4 : PromptRequest :=
  ⟨"gpt-4o", "gpt-4o", "landing", "professional", "", "", [], [], [], "", [],
   defaultDeliverables, "markdown"⟩

/-- Concrete raw request omitting deliverables, used by the C5 witness. -/
def rawC5 : RawRequest :=
  { llm := some "gemini-1.5", project_name := some "Blog X", site_type := some "blog" }

/-- Concrete validated request produced from rawC5. -/
def reqC5 : PromptRequest :=
  ⟨"gemini-1.5", "Blog X", "blog", "professional", "", "", [], [], [], "", [],
   defaultDeliverables, "markdown"⟩

/-- Style table entry for gemini-1.5, used by the C5 witness. -/
def styleC5 : ModelStyle :=
  ⟨"Você é designer de produto multimodal + engenheiro(a).",
   "Se houver imagens, descreva-as. Mantenha passos explícitos."⟩

/-- Response returned for reqC5. -/
def respC5 : PromptResponse :=
  ⟨headerOf reqC5 ++ "\n\n" ++ coreBody reqC5 styleC5, "gemini-1.5"⟩

/-- Concrete request used against the single-blank-line claim. -/
def reqC6 : PromptRequest :=
  ⟨"mistral-large", "Acme", "landing", "professional", "", "", ["cart"], [], [], "", [],
   defaultDeliverables, "markdown"⟩

/-- Style table entry for mistral-large. -/
def styleC6 : ModelStyle :=
  ⟨"Você é um(a) tech lead pragmático(a) de frontend.",
   "Use instruções concisas com passos numerados."⟩

/-- Concrete request used by the C7 witness. -/
def reqC7 : PromptRequest :=
  ⟨"gpt-4o", "A", "docs", "professional", "", "", [], [], [], "", [], [], "markdown"⟩

/-- Style table entry for gpt-4o. -/
def styleC7 : ModelStyle :=
  ⟨"Você é um(a) arquiteto(a) sênior de produto + UX + frontend. Produza instruções precisas, concisas e prontas para implementação.",
   "Prefira listas objetivas e seções prontas para código."⟩

/-- Response returned for reqC7. -/
def respC7 : PromptResponse :=
  ⟨headerOf reqC7 ++ "\n\n" ++ coreBody reqC7 styleC7, "gpt-4o"⟩

/-- Family of valid requests whose project name is a run of n letters,
used against the plain length-bound claim. -/
def reqScale (n : Nat) : PromptRequest :=
  ⟨"gpt-4o", String.mk (List.replicate n 'a'), "landing", "professional", "", "", [], [],
   [], "", [], [], "markdown"⟩

/-- Concrete raw request with an empty project name. -/
def rawC8 : RawRequest :=
  { llm := some "gpt-4o", project_name := some "", site_type := some "landing" }

/-- The validated request produced from rawC8. -/
def reqC8 : PromptRequest :=
  ⟨"gpt-4o", "", "landing", "professional", "", "", [], [], [], "", [],
   defaultDeliverables, "markdown"⟩

/-- A raw request with every field omitted. -/
def rawEmpty : RawRequest := {}

/-- Environment with no datastore module and no variables, used by the C9
witness. -/
def envC9 : TestEnv := ⟨.importError, none, none⟩

/-- A connected datastore handle used by the C10 counterexample. -/
def dbC10 : DBHandle := ⟨some "apps", .ok ["users"]⟩

/-- Environment whose DATABASE_URL and DATABASE_NAME are set to empty
strings. -/
def envC10a : TestEnv := ⟨.ok (some dbC10), some "", some ""⟩

/-- Environment whose DATABASE_URL and DATABASE_NAME are set to non-empty
values. -/
def envC10b : TestEnv := ⟨.ok (some dbC10), some "mongodb://localhost", some "apps"⟩

/-! Helper lemmas shared by the claim theorems. -/

lemma data_nl : ("\n" : String).data = ['\n'] := rfl

lemma data_dash : ("- " : String).data = ['-', ' '] := rfl

lemma intercalateNl_nil : List.intercalate ['\n'] ([] : List (List Char)) = [] := by
  simp [List.intercalate]

lemma intercalateNl_single (a : List Char) : List.intercalate ['\n'] [a] = a := by
  simp [List.intercalate]

lemma intercalateNl_cons₂ (a b : List Char) (t : List (List Char)) :
    List.intercalate ['\n'] (a :: b :: t) = a ++ ['\n'] ++ List.intercalate ['\n'] (b :: t) := by
  simp [List.intercalate, List.intersperse]

lemma joinNl_data : ∀ l : List String, (joinNl l).data = List.intercalate ['\n'] (l.map String.data)
  | [] => by simp [joinNl, intercalateNl_nil]
  | [s] => by simp [joinNl, intercalateNl_single]
  | s :: s₂ :: rest => by
    have ih := joinNl_data (s₂ :: rest)
    simp [joinNl, String.data_append, data_nl, ih, intercalateNl_cons₂, List.append_assoc]

lemma bjoin_nil : bjoin [] = "- (nenhum)" := rfl

lemma bjoin_data (l : List String) (h : l ≠ []) :
    (bjoin l).data = List.intercalate ['\n'] (l.map (fun s => '-' :: ' ' :: s.data)) := by
  unfold bjoin
  rw [if_neg (by simpa using h), joinNl_data]
  congr 1
  simp [List.map_map, Function.comp, String.data_append, data_dash]

lemma bjoin_splitOn (l : List String) (h : l ≠ []) (hnl : ∀ s ∈ l, '\n' ∉ s.data) :
    (bjoin l).data.splitOn '\n' = l.map (fun s => '-' :: ' ' :: s.data) := by
  rw [bjoin_data l h]
  apply List.splitOn_intercalate
  · intro part hp
    simp only [List.mem_map] at hp
    obtain ⟨s, hs, rfl⟩ := hp
    simp only [List.mem_cons]
    rintro (h1 | h1 | h1)
    · exact absurd h1 (by decide)
    · exact absurd h1 (by decide)
    · exact hnl s hs h1
  · simpa using h

lemma sumLens_bullet (l : List String) :
    sumLens (l.map (fun i => "- " ++ i)) = sumLens l + 2 * l.length := by
  induction l with
  | nil => simp [sumLens]
  | cons s t ih =>
    have h2 : ("- " : String).length = 2 := rfl
    simp only [List.map_cons, sumLens, List.sum_cons, String.length_append, h2,
      List.length_cons] at *
    omega

lemma joinNl_length : ∀ l : List String, (joinNl l).length ≤ sumLens l + l.length
  | [] => by simp [joinNl, sumLens]
  | [s] => by simp [joinNl, sumLens]
  | s :: s₂ :: rest => by
    have ih := joinNl_length (s₂ :: rest)
    have h1 : ("\n" : String).length = 1 := rfl
    simp only [joinNl, String.length_append, h1, sumLens, List.map_cons, List.sum_cons,
      List.length_cons] at *
    omega

lemma bjoin_length (l : List String) : (bjoin l).length ≤ sumLens l + 3 * l.length + 10 := by
  unfold bjoin
  split
  · have h10 : ("- (nenhum)" : String).length = 10 := rfl
    omega
  · have h := joinNl_length (l.map (fun i => "- " ++ i))
    rw [sumLens_bullet] at h
    simp only [List.length_map] at h
    omega

lemma pyOr_length (s d : String) : (pyOr s d).length ≤ s.length + d.length := by
  unfold pyOr
  split <;> omega

lemma string_mk_data (s : String) : String.mk s.data = s := rfl

lemma pyStrip_wrap (m : String) (c d : Char) (hc : c.isWhitespace = false)
    (hd : d.isWhitespace = false) (hh : m.data.head? = some c)
    (hl : m.data.getLast? = some d) : pyStrip ("\n" ++ m ++ "\n") = m := by
  obtain ⟨t, ht⟩ : ∃ t, m.data = c :: t := by
    cases hm : m.data with
    | nil => rw [hm] at hh; simp at hh
    | cons a t =>
      rw [hm] at hh
      simp only [List.head?_cons, Option.some.injEq] at hh
      exact ⟨t, by rw [hh]⟩
  obtain ⟨t', ht'⟩ : ∃ t', m.data.reverse = d :: t' := by
    cases hm : m.data.reverse with
    | nil =>
      have : m.data = [] := by simpa using congrArg List.reverse hm
      rw [this] at hl; simp at hl
    | cons a t' =>
      have : m.data.reverse.head? = some d := by rw [List.head?_reverse]; exact hl
      rw [hm] at this
      simp only [List.head?_cons, Option.some.injEq] at this
      exact ⟨t', by rw [this]⟩
  have hdata : ("\n" ++ m ++ "\n").data = '\n' :: (m.data ++ ['\n']) := by
    simp [String.data_append, data_nl]
  unfold pyStrip
  rw [hdata]
  rw [List.dropWhile_cons, if_pos (by decide)]
  have h2 : (m.data ++ ['\n']).dropWhile Char.isWhitespace = m.data ++ ['\n'] := by
    rw [ht, List.cons_append, List.dropWhile_cons, if_neg (by simp [hc])]
  rw [h2]
  have h3 : (m.data ++ ['\n']).reverse = '\n' :: m.data.reverse := by
    simp [List.reverse_append]
  rw [h3]
  rw [List.dropWhile_cons, if_pos (by decide)]
  rw [ht', List.dropWhile_cons, if_neg (by simp [hd]), ← ht', List.reverse_reverse]

lemma coreBody_head (req : PromptRequest) (style : ModelStyle) :
    (coreBody req style).data.head? = some '[' := by
  unfold coreBody
  simp only [String.append_assoc]
  rw [String.data_append, List.head?_append_of_ne_nil _ (by decide)]
  decide

lemma coreBody_last (req : PromptRequest) (style : ModelStyle) :
    (coreBody req style).data.getLast? = some '.' := by
  unfold coreBody
  rw [String.data_append, List.getLast?_append_of_ne_nil _ (by decide)]
  decide

lemma core_strip (req : PromptRequest) (style : ModelStyle) :
    pyStrip (coreRaw req style) = coreBody req style := by
  unfold coreRaw
  exact pyStrip_wrap _ '[' '.' (by decide) (by decide)
    (coreBody_head req style) (coreBody_last req style)

lemma generate_prompt_of_style (req : PromptRequest) (style : ModelStyle)
    (h : lookupStyle req.llm = some style) :
    generate_prompt req = .ok ⟨headerOf req ++ "\n\n" ++ coreBody req style, req.llm⟩ := by
  unfold generate_prompt
  rw [h]
  exact congrArg
    (fun c => (Except.ok ⟨headerOf req ++ "\n\n" ++ c, req.llm⟩ : Except HTTPError PromptResponse))
    (core_strip req style)

lemma lookupStyle_of_not_mem (s : String) (h : s ∉ llmValues) : lookupStyle s = none := by
  unfold lookupStyle
  rw [List.find?_eq_none.mpr]
  · rfl
  · intro p hp
    simp only [ MODEL_STYLES, List.mem_cons, List.not_mem_nil, or_false] at hp
    rcases hp with rfl | rfl | rfl | rfl | rfl | rfl <;>
      (simp only [beq_iff_eq]; rintro rfl; exact h (by simp [llmValues]))

lemma lookupStyle_of_mem (s : String) (h : s ∈ llmValues) : ∃ st, lookupStyle s = some st := by
  simp only [llmValues, List.mem_cons, List.not_mem_nil, or_false] at h
  rcases h with rfl | rfl | rfl | rfl | rfl | rfl <;> exact ⟨_, rfl⟩

lemma string_ne_empty_of_head (s : String) (c : Char) (h : s.data.head? = some c) :
    s ≠ "" := by
  intro he
  subst he
  simp at h

lemma contains_iff_mem (l : List String) (s : String) : l.contains s = true ↔ s ∈ l := by
  simp [List.contains_eq_any_beq]

lemma validate_ok_inv (raw : RawRequest) (req : PromptRequest)
    (h : validate raw = .ok req) :
    validRequest req = true ∧ raw.project_name = some req.project_name ∧
    req.deliverables = raw.deliverables.getD defaultDeliverables := by
  unfold validate at h
  cases hllm : raw.llm with
  | none => rw [hllm] at h; exact absurd h (by simp)
  | some llm =>
    rw [hllm] at h
    dsimp only at h
    by_cases h1 : llmValues.contains llm
    · rw [if_pos h1] at h
      cases hpn : raw.project_name with
      | none => rw [hpn] at h; exact absurd h (by simp)
      | some project_name =>
        rw [hpn] at h
        dsimp only at h
        cases hst : raw.site_type with
        | none => rw [hst] at h; exact absurd h (by simp)
        | some site_type =>
          rw [hst] at h
          dsimp only at h
          by_cases h2 : siteTypeValues.contains site_type
          · rw [if_pos h2] at h
            by_cases h3 : toneValues.contains (raw.tone.getD "professional")
            · rw [if_pos h3] at h
              by_cases h4 : outputFormatValues.contains (raw.output_format.getD "markdown")
              · rw [if_pos h4] at h
                simp only [Except.ok.injEq] at h
                subst h
                refine ⟨?_, ?_, rfl⟩
                · simp only [validRequest, Bool.and_eq_true, contains_iff_mem]
                  exact ⟨⟨⟨(contains_iff_mem _ _).mp h1, (contains_iff_mem _ _).mp h2⟩,
                    (contains_iff_mem _ _).mp h3⟩, (contains_iff_mem _ _).mp h4⟩
                · rfl
              · rw [if_neg h4] at h; exact absurd h (by simp)
            · rw [if_neg h3] at h; exact absurd h (by simp)
          · rw [if_neg h2] at h; exact absurd h (by simp)
    · rw [if_neg h1] at h; exact absurd h (by simp)

lemma validRequest_llm_mem (req : PromptRequest) (h : validRequest req = true) :
    req.llm ∈ llmValues := by
  unfold validRequest at h
  simp only [Bool.and_eq_true, contains_iff_mem] at h
  tauto

lemma countOccs_pos (A pat B : String) : 1 ≤ countOccs (A ++ pat ++ B) pat := by
  unfold countOccs
  refine List.countP_pos_iff.mpr ⟨A.data.length, ?_, ?_⟩
  · simp only [List.mem_range, String.data_append, List.length_append]
    omega
  · have h1 : (A ++ pat ++ B).data = A.data ++ (pat.data ++ B.data) := by
      simp [String.data_append, List.append_assoc]
    rw [h1, List.drop_left, List.take_left]
    simp

lemma headerOf_pn (req : PromptRequest) :
    headerOf req = ("Modelo: " ++ req.llm ++ "\nProjeto: ") ++ req.project_name ++
      ("\nTipo: " ++ req.site_type ++ "\nTom: " ++ req.tone ++ "\n") := by
  simp [headerOf, String.append_assoc]

lemma headerOf_st (req : PromptRequest) :
    headerOf req = ("Modelo: " ++ req.llm ++ "\nProjeto: " ++ req.project_name ++
      "\nTipo: ") ++ req.site_type ++ ("\nTom: " ++ req.tone ++ "\n") := by
  simp [headerOf, String.append_assoc]

lemma prompt_head (req : PromptRequest) (style : ModelStyle) :
    (headerOf req ++ "\n\n" ++ coreBody req style).data.head? = some 'M' := by
  simp only [headerOf, String.append_assoc]
  rw [String.data_append, List.head?_append_of_ne_nil _ (by decide)]
  decide

lemma coreBody_data_ne_nil (req : PromptRequest) (style : ModelStyle) :
    (coreBody req style).data ≠ [] := by
  intro h0
  have h := coreBody_last req style
  rw [h0] at h
  simp at h

lemma prompt_last (req : PromptRequest) (style : ModelStyle) :
    (headerOf req ++ "\n\n" ++ coreBody req style).data.getLast? = some '.' := by
  rw [String.data_append, List.getLast?_append_of_ne_nil _ (coreBody_data_ne_nil req style)]
  exact coreBody_last req style

lemma prompt_three_newlines (req : PromptRequest) (style : ModelStyle) :
    headerOf req ++ "\n\n" ++ coreBody req style =
      headerLines req ++ "\n\n\n" ++ coreBody req style := by
  have h2 : ("\n" : String) ++ "\n\n" = "\n\n\n" := by decide
  have h : ("\n" : String) ++ ("\n\n" ++ coreBody req style) =
      "\n\n\n" ++ coreBody req style := by
    rw [← String.append_assoc, h2]
  simp only [headerOf, headerLines, String.append_assoc, h]

lemma coreBody_split (req : PromptRequest) (style : ModelStyle) :
    coreBody req style = coreFront req style ++
      ("[ENTREGÁVEIS]\nProduza o seguinte, otimizando para o modelo selecionado:\n" ++
        bjoin req.deliverables ++ "\n\n") ++ coreBack req := by
  simp only [coreBody, coreFront, coreBack, String.append_assoc]

lemma lookupStyle_bounds (s : String) (st : ModelStyle) (h : lookupStyle s = some st) :
    st.system.length ≤ 300 ∧ st.notes.length ≤ 300 := by
  unfold lookupStyle at h
  cases hf : MODEL_STYLES.find? (fun p => p.1 == s) with
  | none => rw [hf] at h; simp at h
  | some pr =>
    rw [hf] at h
    simp only [Option.map_some', Option.some.injEq] at h
    subst h
    have hmem := List.mem_of_find?_eq_some hf
    simp only [ MODEL_STYLES, List.mem_cons, List.not_mem_nil, or_false] at hmem
    rcases hmem with rfl | rfl | rfl | rfl | rfl | rfl <;> exact ⟨by decide, by decide⟩

lemma test_database_url (env : TestEnv) :
    (test_database env).database_url =
      some (if pyTruthy env.DATABASE_URL then "✅ Definida" else "❌ Não definida") := by
  simp [test_database]

lemma test_database_name (env : TestEnv) :
    (test_database env).database_name =
      some (if pyTruthy env.DATABASE_NAME then "✅ Definido" else "❌ Não definido") := by
  simp [test_database]

lemma test_database_database (env : TestEnv) :
    (test_database env).database =
      match env.dbImport with
      | .importError => "❌ Módulo de banco de dados não encontrado (opcional)"
      | .otherError e => "❌ Erro: " ++ e.take 50
      | .ok none => "⚠️  Disponível, porém não inicializado"
      | .ok (some db) =>
        match db.list_collection_names with
        | .ok _ => "✅ Conectado e funcionando"
        | .error e => "⚠️  Conectado, mas erro: " ++ e.take 50 := by
  cases h : env.dbImport with
  | importError => simp [test_database, h]
  | otherError e => simp [test_database, h]
  | ok o =>
    cases o with
    | none => simp [test_database, h]
    | some db =>
      cases hc : db.list_collection_names with
      | ok cols => simp [test_database, h, hc]
      | error e => simp [test_database, h, hc]

lemma prompt_length_lower (req : PromptRequest) (style : ModelStyle) :
    2 * req.project_name.length ≤ (headerOf req ++ "\n\n" ++ coreBody req style).length := by
  simp only [headerOf, coreBody, String.length_append]
  omega

lemma reqScale_valid (n : Nat) : validRequest (reqScale n) = true := rfl

lemma plainSize_reqScale (n : Nat) : plainSize (reqScale n) = n + 33 := by
  have hmk : (String.mk (List.replicate n 'a')).length = n := by
    rw [String.mk_length, List.length_replicate]
  have e1 : ("gpt-4o" : String).length = 6 := rfl
  have e2 : ("landing" : String).length = 7 := rfl
  have e3 : ("professional" : String).length = 12 := rfl
  have e4 : ("markdown" : String).length = 8 := rfl
  have e5 : ("" : String).length = 0 := rfl
  simp only [plainSize, reqScale, sumLens, List.map_nil, List.sum_nil, hmk, e1, e2, e3, e4, e5]
  omega

/-! Claim theorems. -/

/-- Claim C1: the rendered bullet block of an ordered-sequence field is,
for the empty sequence, the single placeholder line meaning none; otherwise
it is the newline-join of the elements, each prefixed with the bullet
marker followed by the element verbatim, in input order, with no
deduplication, no sorting, and no elements added or removed; in particular,
when no element contains a newline character, splitting the block at
newlines yields exactly one line per element. -/
theorem bullet_block_rendering (l : List String) :
    (l = [] → bjoin l = "- (nenhum)") ∧
    (l ≠ [] →
      (bjoin l).data = List.intercalate ['\n'] (l.map (fun s => '-' :: ' ' :: s.data))) ∧
    (l ≠ [] → (∀ s ∈ l, '\n' ∉ s.data) →
      (bjoin l).data.splitOn '\n' = l.map (fun s => '-' :: ' ' :: s.data)) := by
  refine ⟨?_, fun h => bjoin_data l h, fun h hnl => bjoin_splitOn l h hnl⟩
  rintro rfl
  rfl

/-- Witness for C1 at a concrete duplicated, unsorted input. -/
theorem bullet_block_rendering_witness :
    (bjoin ["cart", "cart", "SEO"]).data.splitOn '\n' =
      [("- cart" : String).data, ("- cart" : String).data, ("- SEO" : String).data] := by
  have h := (bullet_block_rendering ["cart", "cart", "SEO"]).2.2 (by decide) (by decide)
  rw [h]
  decide

/-- Claim C2: generate_prompt fails, and then with the 400 client error
carrying the localized message Modelo não suportado, exactly when the
request llm is not a key of the style table; for every request whose llm is
one of the six supported identifiers it succeeds. -/
theorem unsupported_model_error (req : PromptRequest) :
    ((∃ e, generate_prompt req = .error e) ↔ req.llm ∉ MODEL_STYLES.map Prod.fst) ∧
    (∀ e, generate_prompt req = .error e →
      e.status_code = 400 ∧ e.detail = "Modelo não suportado") ∧
    (req.llm ∈ llmValues → ∃ resp, generate_prompt req = .ok resp) := by
  have hkeys : MODEL_STYLES.map Prod.fst = llmValues := by decide
  refine ⟨⟨?_, ?_⟩, ?_, ?_⟩
  · rintro ⟨e, he⟩ hmem
    rw [hkeys] at hmem
    obtain ⟨st, hst⟩ := lookupStyle_of_mem _ hmem
    rw [generate_prompt_of_style req st hst] at he
    exact absurd he (by simp)
  · intro hmem
    rw [hkeys] at hmem
    have hnone := lookupStyle_of_not_mem _ hmem
    exact ⟨⟨400, "Modelo não suportado"⟩, by unfold generate_prompt; rw [hnone]⟩
  · intro e he
    by_cases hmem : req.llm ∈ llmValues
    · obtain ⟨st, hst⟩ := lookupStyle_of_mem _ hmem
      rw [generate_prompt_of_style req st hst] at he
      exact absurd he (by simp)
    · have hnone := lookupStyle_of_not_mem _ hmem
      unfold generate_prompt at he
      rw [hnone] at he
      simp only [Except.error.injEq] at he
      subst he
      exact ⟨rfl, rfl⟩
  · intro hmem
    obtain ⟨st, hst⟩ := lookupStyle_of_mem _ hmem
    exact ⟨_, generate_prompt_of_style req st hst⟩

/-- Witness for C2: a request with a supported identifier succeeds. -/
theorem unsupported_model_error_witness :
    ∃ resp, generate_prompt reqC2 = .ok resp :=
  (unsupported_model_error reqC2).2.2 (by decide)

/-- Claim C3: on every request that passes validation, compose is total and
deterministic: it returns a value, echoes the request llm unchanged, and
any invocation on an identical request returns the identical response,
prompt text included.  Rendering is embedded as a pure function of the
request and the static style table, so freedom from hidden state and side
effects holds by construction. -/
theorem compose_total_deterministic (raw : RawRequest) (req : PromptRequest)
    (h : validate raw = .ok req) :
    ∃ p, generate_prompt req = .ok p ∧ p.llm = req.llm ∧
      ∀ req₂, req₂ = req → generate_prompt req₂ = .ok p := by
  have hv := (validate_ok_inv raw req h).1
  obtain ⟨st, hst⟩ := lookupStyle_of_mem _ (validRequest_llm_mem req hv)
  refine ⟨_, generate_prompt_of_style req st hst, rfl, ?_⟩
  intro req₂ h2
  rw [h2]
  exact generate_prompt_of_style req st hst

/-- Witness for C3 at a concrete validated request. -/
theorem compose_total_deterministic_witness :
    ∃ p, generate_prompt reqC3 = .ok p ∧ p.llm = reqC3.llm ∧
      ∀ req₂, req₂ = reqC3 → generate_prompt req₂ = .ok p :=
  compose_total_deterministic rawC3 reqC3 (by decide)

/-- Counterexample for C4 as stated: in a valid supported request whose
project name coincides with the model identifier, the literal project name
occurs twice in the header, not exactly once. -/
theorem header_exactly_once_fails :
    reqC4.llm ∈ llmValues ∧ validRequest reqC4 = true ∧
    countOccs (headerOf reqC4) reqC4.project_name = 2 := by
  refine ⟨by decide, by decide, by decide⟩

/-- Claim C4 (amended): for every request with llm among the six supported
identifiers, compose returns a non-empty prompt that begins with the header
block; the header consists of the model identifier, project name, site
type and tone, one per line in that fixed order, and the literal project
name and the literal site type each occur at least once in the header
(exactly once cannot be guaranteed, since a free-text project name may
repeat another header component). -/
theorem header_contents (req : PromptRequest) (h : req.llm ∈ llmValues) :
    ∃ p, generate_prompt req = .ok p ∧ p.prompt ≠ "" ∧
      (∃ rest, p.prompt = headerOf req ++ rest) ∧
      headerOf req = "Modelo: " ++ req.llm ++ "\nProjeto: " ++ req.project_name ++
        "\nTipo: " ++ req.site_type ++ "\nTom: " ++ req.tone ++ "\n" ∧
      1 ≤ countOccs (headerOf req) req.project_name ∧
      1 ≤ countOccs (headerOf req) req.site_type := by
  obtain ⟨st, hst⟩ := lookupStyle_of_mem _ h
  refine ⟨_, generate_prompt_of_style req st hst, ?_, ?_, rfl, ?_, ?_⟩
  · exact string_ne_empty_of_head _ 'M' (prompt_head req st)
  · exact ⟨"\n\n" ++ coreBody req st, by rw [String.append_assoc]⟩
  · rw [headerOf_pn]
    exact countOccs_pos _ _ _
  · rw [headerOf_st]
    exact countOccs_pos _ _ _

/-- Witness for C4 (amended) at a concrete supported request. -/
theorem header_contents_witness :
    ∃ p, generate_prompt reqC6 = .ok p ∧ p.prompt ≠ "" ∧
      (∃ rest, p.prompt = headerOf reqC6 ++ rest) ∧
      headerOf reqC6 = "Modelo: " ++ reqC6.llm ++ "\nProjeto: " ++ reqC6.project_name ++
        "\nTipo: " ++ reqC6.site_type ++ "\nTom: " ++ reqC6.tone ++ "\n" ∧
      1 ≤ countOccs (headerOf reqC6) reqC6.project_name ∧
      1 ≤ countOccs (headerOf reqC6) reqC6.site_type :=
  header_contents reqC6 (by decide)

/-- Claim C5: when deliverables is omitted the validated request carries
the fixed seven-item default list, and the deliverables section of the
prompt renders it as exactly seven bullet lines in that fixed order. -/
theorem default_deliverables_rendering :
    (∀ raw req, raw.deliverables = none → validate raw = .ok req →
      req.deliverables = defaultDeliverables) ∧
    defaultDeliverables.length = 7 ∧
    bjoin defaultDeliverables =
      "- mapa do site\n- roteiro de conteúdo\n- descrição de wireframe\n- lista de componentes\n- comportamento responsivo\n- metas de SEO\n- checklist de acessibilidade" ∧
    (∀ req style p, lookupStyle req.llm = some style → generate_prompt req = .ok p →
      ∃ A B, p.prompt = A ++
        ("[ENTREGÁVEIS]\nProduza o seguinte, otimizando para o modelo selecionado:\n" ++
          bjoin req.deliverables ++ "\n\n") ++ B) := by
  refine ⟨?_, rfl, by decide, ?_⟩
  · intro raw req hnone hok
    have h := (validate_ok_inv raw req hok).2.2
    rw [hnone] at h
    exact h
  · intro req style p hst hok
    rw [generate_prompt_of_style req style hst] at hok
    simp only [Except.ok.injEq] at hok
    subst hok
    refine ⟨headerOf req ++ "\n\n" ++ coreFront req style, coreBack req, ?_⟩
    dsimp only
    rw [coreBody_split]
    simp [String.append_assoc]

/-- Witness for C5 at a concrete request omitting deliverables. -/
theorem default_deliverables_rendering_witness :
    reqC5.deliverables = defaultDeliverables ∧
    ∃ A B, respC5.prompt = A ++
      ("[ENTREGÁVEIS]\nProduza o seguinte, otimizando para o modelo selecionado:\n" ++
        bjoin reqC5.deliverables ++ "\n\n") ++ B :=
  ⟨default_deliverables_rendering.1 rawC5 reqC5 rfl (by decide),
   default_deliverables_rendering.2.2.2 reqC5 styleC5 respC5 (by decide)
     (generate_prompt_of_style reqC5 styleC5 (by decide))⟩

/-- Counterexample for C6 as stated: at a concrete valid request the
returned prompt carries two blank lines between the last header line and
the body, not one: the prompt equals the header lines followed by three
consecutive newlines and the body, which differs from the claimed form
with a single blank line. -/
theorem single_blank_line_fails :
    generate_prompt reqC6 =
      .ok ⟨headerLines reqC6 ++ "\n\n\n" ++ coreBody reqC6 styleC6, "mistral-large"⟩ ∧
    headerLines reqC6 ++ "\n\n\n" ++ coreBody reqC6 styleC6 ≠
      headerLines reqC6 ++ "\n\n" ++ coreBody reqC6 styleC6 := by
  constructor
  · rw [generate_prompt_of_style reqC6 styleC6 (by decide), prompt_three_newlines]
    rfl
  · intro heq
    have hlen := congrArg String.length heq
    have e3 : ("\n\n\n" : String).length = 3 := rfl
    have e2 : ("\n\n" : String).length = 2 := rfl
    simp only [String.length_append, e3, e2] at hlen
    omega

/-- Claim C6 (amended): for every request whose llm is a table key, the
returned prompt is the header block followed by the body block with two
blank lines between them (the header f-string ends with its own newline
and the composer inserts a blank-line separator), and the result neither
starts nor ends with whitespace. -/
theorem header_body_separator (req : PromptRequest) (style : ModelStyle)
    (h : lookupStyle req.llm = some style) :
    ∃ p, generate_prompt req = .ok p ∧
      p.prompt = headerLines req ++ "\n\n\n" ++ coreBody req style ∧
      (∀ c, p.prompt.data.head? = some c → c.isWhitespace = false) ∧
      (∀ c, p.prompt.data.getLast? = some c → c.isWhitespace = false) := by
  refine ⟨_, generate_prompt_of_style req style h, prompt_three_newlines req style, ?_, ?_⟩
  · intro c hc
    rw [prompt_head req style] at hc
    simp only [Option.some.injEq] at hc
    subst hc
    decide
  · intro c hc
    rw [prompt_last req style] at hc
    simp only [Option.some.injEq] at hc
    subst hc
    decide

/-- Witness for C6 (amended) at a concrete request. -/
theorem header_body_separator_witness :
    ∃ p, generate_prompt reqC5 = .ok p ∧
      p.prompt = headerLines reqC5 ++ "\n\n\n" ++ coreBody reqC5 styleC5 ∧
      (∀ c, p.prompt.data.head? = some c → c.isWhitespace = false) ∧
      (∀ c, p.prompt.data.getLast? = some c → c.isWhitespace = false) :=
  header_body_separator reqC5 styleC5 (by decide)

/-- Counterexample for C7 as stated: no fixed constant bounds the prompt
length by the plain sum of the request field content lengths, because the
project name is rendered twice; a valid request whose project name is long
enough exceeds any proposed constant. -/
theorem length_bound_plain_fails :
    ¬ ∃ C : Nat, ∀ (req : PromptRequest) (p : PromptResponse),
        validRequest req = true → generate_prompt req = .ok p →
        p.prompt.length ≤ plainSize req + C := by
  rintro ⟨C, hC⟩
  have hm : (reqScale (C + 34)).llm ∈ llmValues := by
    show ("gpt-4o" : String) ∈ llmValues
    decide
  obtain ⟨st, hst⟩ := lookupStyle_of_mem (reqScale (C + 34)).llm hm
  have hok := generate_prompt_of_style (reqScale (C + 34)) st hst
  have hb := hC (reqScale (C + 34)) _ (reqScale_valid (C + 34)) hok
  have hlow := prompt_length_lower (reqScale (C + 34)) st
  have hpn : (reqScale (C + 34)).project_name.length = C + 34 := by
    show (String.mk (List.replicate (C + 34) 'a')).length = C + 34
    rw [String.mk_length, List.length_replicate]
  rw [plainSize_reqScale] at hb
  dsimp only at hb
  rw [hpn] at hlow
  omega

/-- Claim C7 (amended): for every request that passes validation, the
length of the returned prompt is bounded by the sum of the lengths of the
request field contents, counting project name, site type and tone twice
(each is rendered in both the header and the body) and adding three
characters of bullet overhead per list element, plus a fixed constant
covering the template boilerplate. -/
theorem prompt_length_bound (req : PromptRequest) (p : PromptResponse)
    (hv : validRequest req = true) (h : generate_prompt req = .ok p) :
    p.prompt.length ≤ weightedSize req + TEMPLATE_OVERHEAD := by
  obtain ⟨st, hst⟩ := lookupStyle_of_mem _ (validRequest_llm_mem req hv)
  rw [generate_prompt_of_style req st hst] at h
  simp only [Except.ok.injEq] at h
  subst h
  have hs1 := (lookupStyle_bounds _ _ hst).1
  have hs2 := (lookupStyle_bounds _ _ hst).2
  have hb1 := bjoin_length req.preferred_stack
  have hb2 := bjoin_length req.features
  have hb3 := bjoin_length req.pages
  have hb4 := bjoin_length req.seo_keywords
  have hb5 := bjoin_length req.deliverables
  have hp1 := pyOr_length req.target_audience "Público geral da web"
  have hp2 := pyOr_length req.brand_colors "A definir"
  have hp3 := pyOr_length req.constraints "Nenhuma especificada"
  have hd1 : ("Público geral da web" : String).length ≤ 300 := by decide
  have hd2 : ("A definir" : String).length ≤ 300 := by decide
  have hd3 : ("Nenhuma especificada" : String).length ≤ 300 := by decide
  have hl01 : ("Modelo: " : String).length ≤ 300 := by decide
  have hl02 : ("\nProjeto: " : String).length ≤ 300 := by decide
  have hl03 : ("\nTipo: " : String).length ≤ 300 := by decide
  have hl04 : ("\nTom: " : String).length ≤ 300 := by decide
  have hl05 : ("\n" : String).length ≤ 300 := by decide
  have hl06 : ("\n\n" : String).length ≤ 300 := by decide
  have hl07 : ("[SISTEMA]\n" : String).length ≤ 300 := by decide
  have hl08 : ("\nNotas adicionais: " : String).length ≤ 300 := by decide
  have hl09 : ("[OBJETIVO]\nProjete e descreva um site completo para \"" : String).length ≤ 300 := by
    decide
  have hl10 : ("\".\n\n" : String).length ≤ 300 := by decide
  have hl11 : ("[CONTEXTO]\nPúblico-alvo: " : String).length ≤ 300 := by decide
  have hl12 : ("\nCores/tema da marca: " : String).length ≤ 300 := by decide
  have hl13 : ("\nRestrições: " : String).length ≤ 300 := by decide
  have hl14 : ("\nStack preferida: \n" : String).length ≤ 300 := by decide
  have hl15 : ("[TIPO DE SITE]\n" : String).length ≤ 300 := by decide
  have hl16 : ("[FUNCIONALIDADES]\n" : String).length ≤ 300 := by decide
  have hl17 : ("[PÁGINAS]\n" : String).length ≤ 300 := by decide
  have hl18 : ("[SEO]\nPalavras-chave principais:\n" : String).length ≤ 300 := by decide
  have hl19 : ("[ENTREGÁVEIS]\nProduza o seguinte, otimizando para o modelo selecionado:\n" : String).length ≤ 300 := by
    decide
  have hl20 : ("[GUIA DE ESTILO]\n- Voz e tom: " : String).length ≤ 300 := by decide
  have hl21 : ("\n- Acessibilidade: WCAG 2.2 AA; inclua landmarks, contraste de cores e navegação por teclado.\n- Desempenho: lazy-load de mídia, compressão de assets, mínimo de JavaScript quando possível.\n\n" : String).length ≤ 300 := by
    decide
  have hl22 : ("[SAÍDA]\nFormato de saída preferido: " : String).length ≤ 300 := by decide
  have hl23 : ("\nForneça seções com títulos claros. Inclua exemplos de copy, nomes de componentes e critérios de aceite para cada página. Quando relevante, forneça exemplos de utilitários do Tailwind." : String).length ≤ 300 := by
    decide
  dsimp only
  simp only [headerOf, coreBody, String.length_append, weightedSize, plainSize,
    TEMPLATE_OVERHEAD]
  omega

/-- Witness for C7 (amended) at a concrete request. -/
theorem prompt_length_bound_witness :
    respC7.prompt.length ≤ weightedSize reqC7 + TEMPLATE_OVERHEAD :=
  prompt_length_bound reqC7 respC7 (by decide)
    (generate_prompt_of_style reqC7 styleC7 (by decide))

/-- Counterexample for C8 as stated: a concrete request whose project name
is the empty string passes validation and is composed successfully, so
validation does not reject empty project names. -/
theorem empty_project_name_accepted :
    validate rawC8 = .ok reqC8 ∧ reqC8.project_name = "" ∧
    (generate_prompt reqC8).isOk = true := by
  refine ⟨by decide, rfl, ?_⟩
  rw [generate_prompt_of_style reqC8 styleC7 (by decide)]
  rfl

/-- Claim C8 (amended): validation requires the project_name field to be
present and rejects any request missing it with a validation error, but it
accepts the empty string as a project name, so compose can receive an
empty project_name. -/
theorem project_name_required (raw : RawRequest) (h : raw.project_name = none) :
    (validate raw).isOk = false := by
  cases hv : validate raw with
  | error e => rfl
  | ok req =>
    have h2 := (validate_ok_inv raw req hv).2.1
    rw [h] at h2
    exact absurd h2 (by simp)

/-- Witness for C8 (amended): the all-omitted raw request is rejected. -/
theorem project_name_required_witness : (validate rawEmpty).isOk = false :=
  project_name_required rawEmpty rfl

/-- Claim C9: the diagnostic probe is a total function of its environment
(never raises); when the datastore module is unreachable its datastore
status field is the unavailability message; any fault from the datastore
probe is absorbed into a degraded status string; and the response reports
the presence or absence of the DATABASE_URL and DATABASE_NAME variables
through fixed marker strings that never contain the variable values. -/
theorem diagnostic_probe_robust (env : TestEnv) :
    (env.dbImport = .importError →
      (test_database env).database = "❌ Módulo de banco de dados não encontrado (opcional)") ∧
    (∀ msg, env.dbImport = .otherError msg →
      (test_database env).database = "❌ Erro: " ++ msg.take 50) ∧
    (∀ db e, env.dbImport = .ok (some db) → db.list_collection_names = .error e →
      (test_database env).database = "⚠️  Conectado, mas erro: " ++ e.take 50) ∧
    ((test_database env).database_url = some "✅ Definida" ∨
      (test_database env).database_url = some "❌ Não definida") ∧
    ((test_database env).database_name = some "✅ Definido" ∨
      (test_database env).database_name = some "❌ Não definido") ∧
    (env.DATABASE_URL = none → (test_database env).database_url = some "❌ Não definida") ∧
    (∀ v, env.DATABASE_URL = some v → v ≠ "" →
      (test_database env).database_url = some "✅ Definida") := by
  refine ⟨?_, ?_, ?_, ?_, ?_, ?_, ?_⟩
  · intro h
    rw [test_database_database, h]
  · intro msg h
    rw [test_database_database, h]
  · intro db e h hc
    rw [test_database_database, h]
    dsimp only
    rw [hc]
  · rw [test_database_url]
    cases pyTruthy env.DATABASE_URL
    · right; rfl
    · left; rfl
  · rw [test_database_name]
    cases pyTruthy env.DATABASE_NAME
    · right; rfl
    · left; rfl
  · intro h
    rw [test_database_url, h]
    rfl
  · intro v h hv
    rw [test_database_url, h]
    simp [pyTruthy, hv]

/-- Witness for C9 at an environment with no datastore module and no
variables. -/
theorem diagnostic_probe_robust_witness :
    (test_database envC9).database = "❌ Módulo de banco de dados não encontrado (opcional)" ∧
    (test_database envC9).database_url = some "❌ Não definida" :=
  ⟨(diagnostic_probe_robust envC9).1 rfl, (diagnostic_probe_robust envC9).2.2.2.2.2.1 rfl⟩

/-- Counterexample for C10 as stated: the database_url field of the
response is not determined solely by whether DATABASE_URL is set; two
environments that both have it set, one to the empty string and one to a
non-empty value, produce different field values, because the code tests
Python truthiness and treats a set-but-empty variable as undefined. -/
theorem env_report_not_presence_only :
    envC10a.DATABASE_URL ≠ none ∧ envC10b.DATABASE_URL ≠ none ∧
    (test_database envC10a).database_url ≠ (test_database envC10b).database_url := by
  refine ⟨by decide, by decide, by decide⟩

/-- Claim C10 (amended): the database_url and database_name fields of the
response are determined solely by whether DATABASE_URL and DATABASE_NAME
are set to non-empty values; the final unconditional assignments overwrite
any values set in the connected-datastore branch, so the earlier value
never appears in the returned response regardless of datastore state. -/
theorem env_vars_overwrite (env : TestEnv) :
    (test_database env).database_url =
      some (if pyTruthy env.DATABASE_URL then "✅ Definida" else "❌ Não definida") ∧
    (test_database env).database_name =
      some (if pyTruthy env.DATABASE_NAME then "✅ Definido" else "❌ Não definido") ∧
    (test_database env).database_url ≠ some "✅ Configurada" := by
  refine ⟨test_database_url env, test_database_name env, ?_⟩
  rw [test_database_url]
  cases pyTruthy env.DATABASE_URL <;> decide

end Backend

